import Mathlib

/-!
Shallow embedding of the Instor label generator (`InstorLabel.py`).

The embedding models the two core components: the column resolver
(`normalize_column_name`, `find_column`) and the label document generator
(`parse_line_location`, `generate_qr_code`, `generate_sticker_labels`).

Modelling conventions:
* a pandas cell is either NaN or a value; `str()` of NaN is the string "nan";
* a row is an association list from column name to cell (pandas label lookup);
* rows are processed positionally, matching the default integer RangeIndex;
* physical lengths are exact rationals measured in centimetres, so the
  content width `CONTENT_BOX_WIDTH - 0.2*cm` is the rational `10 - 1/5`;
* the QR library call sits behind a `try/except`; the Boolean oracle `qrOk`
  abstracts whether encoding a given payload succeeds, and a successful
  encoding is represented by the payload string it embeds;
* the wall-clock date `datetime.datetime.now()` is an explicit parameter;
* the generated PDF is modelled as the ordered list of flowable elements
  (one content block per sticker, plus explicit page breaks), which carries
  the page count, region structure, cell texts and column widths.
-/

namespace InstorLabel

/-- A pandas cell: either missing (NaN) or a value carrying its string form. -/
inductive Cell
| na
| val (s : String)
deriving DecidableEq, Repr

/-- Python `str()` applied to a cell; `str(nan)` is `"nan"`. -/
def Cell.toStr : Cell → String
| Cell.na => "nan"
| Cell.val s => s

/-- `pd.notna` on a cell. -/
def Cell.notna : Cell → Bool
| Cell.na => false
| Cell.val _ => true

/-- One table row: column label to cell, as pandas label-based lookup. -/
abbrev Row := List (String × Cell)

/-- Label lookup `row[col]` (resolved columns always exist in the table). -/
def getCell (r : Row) (c : String) : Cell :=
  match r.find? (fun p => p.1 == c) with
  | some p => p.2
  | none => Cell.na

/-- A loaded DataFrame: its column headers and its rows. -/
structure DataFrame where
  columns : List String
  rows : List Row

/-- ASCII letter-or-digit test, the complement of the regex `[^a-zA-Z0-9]`. -/
def isAsciiAlnum (c : Char) : Bool :=
  ('a' ≤ c && c ≤ 'z') || ('A' ≤ c && c ≤ 'Z') || ('0' ≤ c && c ≤ '9')

/-- `normalize_column_name`: strip every non-alphanumeric character, then
lower-case (`re.sub(r'[^a-zA-Z0-9]', '', str(col_name)).lower()`). -/
def normalize_column_name (s : String) : String :=
  String.mk ((s.data.filter isAsciiAlnum).map Char.toLower)

/-- Whether `n` starts with the characters of the first list. -/
def charsStartWith : List Char → List Char → Bool
| [], _ => true
| _ :: _, [] => false
| a :: as, b :: bs => a == b && charsStartWith as bs

/-- Contiguous-substring test on character lists (Python `needle in hay`). -/
def charsContain (n : List Char) : List Char → Bool
| [] => n.isEmpty
| c :: t => charsStartWith n (c :: t) || charsContain n t

/-- Python string containment `needle in hay`. -/
def strIn (needle hay : String) : Bool :=
  charsContain needle.data hay.data

/-- Python dict insertion `d[k] = v`: overwrite in place if the key exists,
else append at the end (insertion order preserved). -/
def dictInsert (d : List (String × String)) (k v : String) :
    List (String × String) :=
  if d.any (fun p => p.1 == k) then
    d.map (fun p => if p.1 == k then (k, v) else p)
  else d ++ [(k, v)]

/-- The dict comprehension
`{normalize_column_name(col): col for col in df.columns}`. -/
def buildNormDict (cols : List String) : List (String × String) :=
  cols.foldl (fun d c => dictInsert d (normalize_column_name c) c) []

/-- Python dict lookup returning the value stored under `k`, if any. -/
def dictGet? (d : List (String × String)) (k : String) : Option String :=
  (d.find? (fun p => p.1 == k)).map (fun p => p.2)

/-- First stage of `find_column`: an alias whose normalization is a key of
the normalized-header dict (`if norm_name in normalized_df_columns`). -/
def exact_match (nd : List (String × String)) (nn : List String) :
    Option String :=
  nn.findSome? (fun n => dictGet? nd n)

/-- Second stage of `find_column`: the two-sided substring check
(`norm_name in df_norm_name or df_norm_name in norm_name`), outer loop over
aliases, inner loop over the header dict in insertion order. -/
def substr_match (nd : List (String × String)) (nn : List String) :
    Option String :=
  nn.findSome? (fun n =>
    (nd.find? (fun p => strIn n p.1 || strIn p.1 n)).map (fun p => p.2))

/-- Third stage of `find_column`: the line-location keyword scan
(`('line' in df_norm_name and 'location' in df_norm_name) or
'lineloc' in df_norm_name`). -/
def lineloc_keyword (nd : List (String × String)) : Option String :=
  (nd.find? (fun p =>
    (strIn "line" p.1 && strIn "location" p.1) || strIn "lineloc" p.1)).map
    (fun p => p.2)

/-- `find_column(df, possible_names)`: exact normalized match, then substring
match, then the line-location keyword scan, else `None`. -/
def find_column (df : DataFrame) (possible_names : List String) :
    Option String :=
  match exact_match (buildNormDict df.columns)
      (possible_names.map normalize_column_name) with
  | some c => some c
  | none =>
    match substr_match (buildNormDict df.columns)
        (possible_names.map normalize_column_name) with
    | some c => some c
    | none => lineloc_keyword (buildNormDict df.columns)

/-- Split a character list at every occurrence of `sep`; the group list is
never empty (splitting the empty list gives one empty group), matching
Python `str.split` with a one-character separator. -/
def splitChars (sep : Char) : List Char → List (List Char)
| [] => [[]]
| c :: t =>
  match splitChars sep t with
  | [] => [[]]
  | g :: gs => if c == sep then [] :: g :: gs else (c :: g) :: gs

/-- Python `s.split(sep)` for a one-character separator `sep`. -/
def pySplit (s : String) (sep : Char) : List String :=
  (splitChars sep s.data).map String.mk

/-- `parse_line_location`: split on `_`, keep the first 4 parts, pad with
empty strings up to 4 (`parts[:4] + [""] * (4 - len(parts))`, then `[:4]`). -/
def parse_line_location (location_string : String) : List String :=
  if location_string = "" then ["", "", "", ""]
  else
    let parts := pySplit location_string '_'
    (parts.take 4 ++ List.replicate (4 - parts.length) "").take 4

/-- The constant schema `column_mappings`: semantic field name to the ordered
list of accepted header spellings, exactly as in the source. -/
def column_mappings : List (String × List String) :=
  [("ASSLY", ["assly", "ASSY NAME", "Assy Name", "assy name", "assyname",
              "assy_name", "Assy_name", "Assembly", "Assembly Name",
              "ASSEMBLY", "Assembly_Name"]),
   ("part_no", ["PARTNO", "PARTNO.", "Part No", "Part Number", "PartNo",
                "partnumber", "part no", "partnum", "PART", "part",
                "Product Code", "Item Number", "Item ID", "Item No",
                "item", "Item"]),
   ("description", ["DESCRIPTION", "Description", "Desc", "Part Description",
                    "ItemDescription", "item description",
                    "Product Description", "Item Description", "NAME",
                    "Item Name", "Product Name"]),
   ("Part_per_veh", ["QYT", "QTY / VEH", "Qty/Veh", "Qty Bin",
                     "Quantity per Bin", "qty bin", "qtybin", "quantity bin",
                     "BIN QTY", "BINQTY", "QTY_BIN", "QTY_PER_BIN",
                     "Bin Quantity", "BIN"]),
   ("Type", ["TYPE", "type", "Type", "tyPe", "Type name"]),
   ("line_location", ["LINE LOCATION", "Line Location", "line location",
                      "LINELOCATION", "linelocation", "Line_Location",
                      "line_location", "LINE_LOCATION", "LineLocation",
                      "line_loc", "lineloc", "LINELOC", "Line Loc"])]

/-- The alias list the schema stores for a semantic field. -/
def schemaAliases (k : String) : List String :=
  ((column_mappings.find? (fun p => p.1 == k)).map (fun p => p.2)).getD []

/-- `found_columns`: resolve each schema field in schema order, keeping only
the fields for which `find_column` returned a column. -/
def resolveColumns (df : DataFrame) : List (String × String) :=
  column_mappings.foldl
    (fun acc kv =>
      match find_column df kv.2 with
      | some c => acc ++ [(kv.1, c)]
      | none => acc) []

/-- Lookup in the resolved `found_columns` mapping. -/
def fcGet? (fc : List (String × String)) (k : String) : Option String :=
  (fc.find? (fun p => p.1 == k)).map (fun p => p.2)

/-- `required_columns = ['ASSLY', 'part_no', 'description']`. -/
def required_columns : List String := ["ASSLY", "part_no", "description"]

/-- `CONTENT_BOX_WIDTH = 10 * cm`, measured in centimetres. -/
def CONTENT_BOX_WIDTH : ℚ := 10

/-- `content_width = CONTENT_BOX_WIDTH - 0.2*cm`, measured in centimetres. -/
def content_width : ℚ := CONTENT_BOX_WIDTH - 2/10

/-- The five proportional widths for the location region, as passed to
`generate_sticker_labels`. -/
structure LayoutConfig where
  line_loc_header_width : ℚ
  line_loc_box1_width : ℚ
  line_loc_box2_width : ℚ
  line_loc_box3_width : ℚ
  line_loc_box4_width : ℚ
deriving DecidableEq

/-- The content of the code-image cell: the QR image (carrying the payload
it encodes) or the bold textual placeholder produced on failure. -/
inductive QRCell
| image (payload : String)
| placeholder (text : String)
deriving DecidableEq, Repr

/-- `generate_qr_code(data_string)`: the library call is wrapped in
`try/except` and returns `None` on any failure; the oracle `qrOk` abstracts
whether encoding the payload succeeds, and a produced image is identified
with the payload it encodes. -/
def generate_qr_code (qrOk : String → Bool) (data_string : String) :
    Option String :=
  if qrOk data_string then some data_string else none

/-- Field extraction for a required field:
`str(row[found_columns.get(k, '')]) if k in found_columns else "N/A"`. -/
def extractRequired (fc : List (String × String)) (row : Row) (k : String) :
    String :=
  match fcGet? fc k with
  | some c => (getCell row c).toStr
  | none => "N/A"

/-- Field extraction for an optional field:
`str(row[...]) if k in found_columns and pd.notna(row[...]) else ""`. -/
def extractOptional (fc : List (String × String)) (row : Row) (k : String) :
    String :=
  match fcGet? fc k with
  | some c => if (getCell row c).notna then (getCell row c).toStr else ""
  | none => ""

/-- The QR payload: the three mandatory labeled lines, then `+=` of each
optional labeled line guarded by truthiness, then the date line. -/
def mkQrData (ASSLY part_no desc Part_per_veh Type' line_location_raw
    today_date : String) : String :=
  let qr0 := "ASSLY: " ++ ASSLY ++ "\nPart No: " ++ part_no ++
    "\nDescription: " ++ desc ++ "\n"
  let qr1 := if Part_per_veh ≠ "" then
    qr0 ++ ("QTY/BIN: " ++ Part_per_veh ++ "\n") else qr0
  let qr2 := if Type' ≠ "" then qr1 ++ ("Type: " ++ Type' ++ "\n") else qr1
  let qr3 := if line_location_raw ≠ "" then
    qr2 ++ ("Line Location: " ++ line_location_raw ++ "\n") else qr2
  qr3 ++ ("Date: " ++ today_date)

/-- One rendered sticker page: the extracted field texts, the parsed
location boxes, the QR payload and cell, and the column widths of the three
region tables (in centimetres). -/
structure Page where
  ASSLY : String
  part_no : String
  desc : String
  Part_per_veh : String
  Type' : String
  date : String
  line_location_raw : String
  location_boxes : List String
  qr_data : String
  qr_cell : QRCell
  col_widths_top : List ℚ
  col_widths_middle : List ℚ
  col_widths_bottom : List ℚ
deriving DecidableEq

/-- The per-row body of the generation loop: extract the fields, parse the
location, compose the QR payload, encode it (falling back to the `"QR"`
placeholder paragraph), and lay out the three region tables. -/
def buildPage (qrOk : String → Bool) (today_date : String)
    (fc : List (String × String)) (cfg : LayoutConfig) (row : Row) : Page :=
  { ASSLY := extractRequired fc row "ASSLY"
    part_no := extractRequired fc row "part_no"
    desc := extractRequired fc row "description"
    Part_per_veh := extractOptional fc row "Part_per_veh"
    Type' := extractOptional fc row "Type"
    date := today_date
    line_location_raw := extractOptional fc row "line_location"
    location_boxes := parse_line_location (extractOptional fc row "line_location")
    qr_data := mkQrData (extractRequired fc row "ASSLY")
      (extractRequired fc row "part_no") (extractRequired fc row "description")
      (extractOptional fc row "Part_per_veh") (extractOptional fc row "Type")
      (extractOptional fc row "line_location") today_date
    qr_cell :=
      match generate_qr_code qrOk (mkQrData (extractRequired fc row "ASSLY")
        (extractRequired fc row "part_no")
        (extractRequired fc row "description")
        (extractOptional fc row "Part_per_veh")
        (extractOptional fc row "Type")
        (extractOptional fc row "line_location") today_date) with
      | some img => QRCell.image img
      | none => QRCell.placeholder "QR"
    col_widths_top := [content_width * (3/10), content_width * (7/10)]
    col_widths_middle := [content_width * (3/10), content_width * (3/10),
      content_width * (4/10)]
    col_widths_bottom := [content_width * cfg.line_loc_header_width,
      content_width * cfg.line_loc_box1_width,
      content_width * cfg.line_loc_box2_width,
      content_width * cfg.line_loc_box3_width,
      content_width * cfg.line_loc_box4_width] }

/-- One entry of the accumulated `all_elements` flowable list: the three
region tables of one sticker, or an explicit `PageBreak()`. -/
inductive Element
| content (p : Page)
| pageBreak
deriving DecidableEq

/-- Whether an element is a sticker body (not a page break). -/
def Element.isContent : Element → Bool
| Element.content _ => true
| Element.pageBreak => false

/-- The generation loop over the remaining pages: append each sticker's
elements, then a `PageBreak()` whenever `index < total_rows - 1`. -/
def elementsLoop (pages : List Page) (total_rows : ℕ) (index : ℕ) :
    List Element :=
  match pages with
  | [] => []
  | p :: rest =>
    (Element.content p ::
      (if index < total_rows - 1 then [Element.pageBreak] else [])) ++
      elementsLoop rest total_rows (index + 1)

/-- `generate_sticker_labels(df, ...)`: resolve the columns, abort with the
missing required field list if any of `required_columns` is unresolved, else
build one sticker per row (in row order) with page breaks between
consecutive stickers, and return the element list with the resolved
mapping. -/
def generate_sticker_labels (qrOk : String → Bool) (today_date : String)
    (df : DataFrame) (cfg : LayoutConfig) :
    Except (List String) (List Element × List (String × String)) :=
  if required_columns.filter
      (fun c => (fcGet? (resolveColumns df) c).isNone) = [] then
    Except.ok
      (elementsLoop (df.rows.map (buildPage qrOk today_date
        (resolveColumns df) cfg)) df.rows.length 0,
       resolveColumns df)
  else
    Except.error (required_columns.filter
      (fun c => (fcGet? (resolveColumns df) c).isNone))

/-- A page with its QR cell blanked to the placeholder, for comparing
everything on a page except the code image. -/
def Page.eraseQR (p : Page) : Page := { p with qr_cell := QRCell.placeholder "QR" }

/-- Blank the QR cell of a content element. -/
def Element.eraseQR : Element → Element
| Element.content p => Element.content p.eraseQR
| Element.pageBreak => Element.pageBreak

/-- The textual cell content of one sticker, row by row, as laid out in
`unified_table_data` (the code-image cell excluded). -/
def Page.textCells (p : Page) : List (List String) :=
  [["ASSLY", p.ASSLY],
   ["PART NO", p.part_no],
   ["PART DESC", p.desc],
   ["PART PER VEH", p.Part_per_veh],
   ["TYPE", p.Type', ""],
   ["DATE", p.date, ""],
   ["LINE LOCATION"] ++ p.location_boxes]

/-- The textual view of a generation result: per element, the sticker's
cell texts (`none` for a page break), plus the resolved mapping. -/
def docTextView
    (r : Except (List String) (List Element × List (String × String))) :
    Except (List String)
      (List (Option (List (List String))) × List (String × String)) :=
  r.map (fun x => (x.1.map (fun e =>
    match e with
    | Element.content p => some p.textCells
    | Element.pageBreak => none), x.2))

/-- Witness fixture: a one-row table with the three required headers. -/
def rowW : Row :=
  [("ASSLY", Cell.val "A1"), ("PARTNO", Cell.val "P1"),
   ("DESCRIPTION", Cell.val "D1")]

/-- Witness fixture: the table holding `rowW`. -/
def dfW : DataFrame := ⟨["ASSLY", "PARTNO", "DESCRIPTION"], [rowW]⟩

/-- Witness fixture: the default layout configuration. -/
def cfgW : LayoutConfig := ⟨3/10, 2/10, 25/100, 15/100, 1/10⟩

/-- Witness fixture: a QR oracle that always succeeds. -/
def qrOkW : String → Bool := fun _ => true

/-- Every entry of a dict after insertion was already present or is the
inserted key-value pair. -/
theorem dictInsert_mem {d : List (String × String)} {k v : String}
    {q : String × String} (h : q ∈ dictInsert d k v) :
    q ∈ d ∨ q = (k, v) := by
  unfold dictInsert at h
  split at h
  · obtain ⟨p, hp, he⟩ := List.mem_map.mp h
    split at he
    · exact Or.inr he.symm
    · exact Or.inl (he ▸ hp)
  · rcases List.mem_append.mp h with h1 | h1
    · exact Or.inl h1
    · exact Or.inr (List.mem_singleton.mp h1)

/-- Entry characterization for the normalized-header dict fold. -/
theorem foldl_dictInsert_mem (cols : List String)
    (acc : List (String × String)) (q : String × String)
    (h : q ∈ cols.foldl
      (fun d c => dictInsert d (normalize_column_name c) c) acc) :
    q ∈ acc ∨ ∃ c ∈ cols, q = (normalize_column_name c, c) := by
  induction cols generalizing acc with
  | nil => exact Or.inl h
  | cons c cs ih =>
    simp only [List.foldl_cons] at h
    rcases ih _ h with h1 | h1
    · rcases dictInsert_mem h1 with h2 | h2
      · exact Or.inl h2
      · exact Or.inr ⟨c, List.mem_cons_self c cs, h2⟩
    · obtain ⟨c', hc', he⟩ := h1
      exact Or.inr ⟨c', List.mem_cons_of_mem _ hc', he⟩

/-- Every entry of the normalized-header dict stores a table column under
its normalization. -/
theorem buildNormDict_mem {cols : List String} {q : String × String}
    (h : q ∈ buildNormDict cols) :
    q.1 = normalize_column_name q.2 ∧ q.2 ∈ cols := by
  rcases foldl_dictInsert_mem cols [] q h with h1 | ⟨c, hc, he⟩
  · simp at h1
  · exact ⟨by rw [he], by rw [he]; exact hc⟩

/-- After inserting `k`, the dict has an entry with key `k`. -/
theorem dictInsert_hasKey_new (d : List (String × String)) (k v : String) :
    ∃ p ∈ dictInsert d k v, p.1 = k := by
  unfold dictInsert
  split
  · rename_i hany
    obtain ⟨p, hp, hpk⟩ := List.any_eq_true.mp hany
    exact ⟨(k, v), List.mem_map.mpr ⟨p, hp, by simp [hpk]⟩, rfl⟩
  · exact ⟨(k, v), by simp, rfl⟩

/-- Insertion preserves the presence of any existing key. -/
theorem dictInsert_hasKey_old {d : List (String × String)} {k' : String}
    (h : ∃ p ∈ d, p.1 = k') (k v : String) :
    ∃ p ∈ dictInsert d k v, p.1 = k' := by
  obtain ⟨p, hp, he⟩ := h
  unfold dictInsert
  split
  · by_cases hk : p.1 == k
    · refine ⟨(k, v), List.mem_map.mpr ⟨p, hp, by simp [hk]⟩, ?_⟩
      have hpk : p.1 = k := by simpa using hk
      rw [← hpk, he]
    · exact ⟨p, List.mem_map.mpr ⟨p, hp, by simp [hk]⟩, he⟩
  · exact ⟨p, List.mem_append_left _ hp, he⟩

/-- The dict fold preserves the presence of any existing key. -/
theorem foldl_dictInsert_hasKey (cols : List String)
    (acc : List (String × String)) {k' : String}
    (h : ∃ p ∈ acc, p.1 = k') :
    ∃ p ∈ cols.foldl
      (fun d c => dictInsert d (normalize_column_name c) c) acc,
      p.1 = k' := by
  induction cols generalizing acc with
  | nil => exact h
  | cons c cs ih => exact ih _ (dictInsert_hasKey_old h _ _)

/-- Every table column contributes its normalization as a key of the fold. -/
theorem foldl_dictInsert_key_of_mem (cols : List String) :
    ∀ (acc : List (String × String)) {c : String}, c ∈ cols →
    ∃ p ∈ cols.foldl
      (fun d x => dictInsert d (normalize_column_name x) x) acc,
      p.1 = normalize_column_name c := by
  induction cols with
  | nil => intro acc c hc; cases hc
  | cons c' cs ih =>
    intro acc c hc
    rcases List.mem_cons.mp hc with he | hm
    · subst he
      exact foldl_dictInsert_hasKey cs _ (dictInsert_hasKey_new acc _ _)
    · exact ih _ hm

/-- `dictGet?` succeeds exactly when the key is present. -/
theorem dictGet?_isSome_of_hasKey {d : List (String × String)} {k : String}
    (h : ∃ p ∈ d, p.1 = k) : (dictGet? d k).isSome := by
  obtain ⟨p, hp, he⟩ := h
  have hfind : (d.find? (fun p => p.1 == k)).isSome :=
    List.find?_isSome.mpr ⟨p, hp, by simp [he]⟩
  unfold dictGet?
  cases hx : d.find? (fun p => p.1 == k) with
  | none => rw [hx] at hfind; cases hfind
  | some q => simp [hx]

/-- The exact-match stage succeeds whenever some normalized alias is a key
of the normalized-header dict. -/
theorem exact_match_isSome {nd : List (String × String)} {nn : List String}
    {n : String} (hn : n ∈ nn) (h : (dictGet? nd n).isSome) :
    (exact_match nd nn).isSome := by
  by_contra hc
  rw [Option.not_isSome_iff_eq_none] at hc
  have := List.findSome?_eq_none_iff.mp hc n hn
  rw [this] at h
  cases h

/-- A successful exact match returns the value stored in the dict under the
normalization of some alias. -/
theorem exact_match_spec {nd : List (String × String)} {nn : List String}
    {c : String} (h : exact_match nd nn = some c) :
    ∃ n ∈ nn, ∃ p ∈ nd, p.1 = n ∧ p.2 = c := by
  obtain ⟨n, hn, he⟩ := List.exists_of_findSome?_eq_some h
  unfold dictGet? at he
  cases hx : nd.find? (fun p => p.1 == n) with
  | none => rw [hx] at he; cases he
  | some p =>
    rw [hx] at he
    refine ⟨n, hn, p, List.mem_of_find?_eq_some hx, ?_, ?_⟩
    · simpa using List.find?_some hx
    · simpa using he

/-- The generation loop interleaves exactly one `PageBreak()` between
consecutive stickers and none after the last. -/
theorem elementsLoop_eq_intersperse (pages : List Page) :
    ∀ (index total : ℕ), index + pages.length = total →
    elementsLoop pages total index =
      List.intersperse Element.pageBreak (pages.map Element.content) := by
  induction pages with
  | nil => intro i t h; rfl
  | cons p rest ih =>
    intro i t h
    cases rest with
    | nil =>
      have hge : ¬ (i < t - 1) := by
        simp only [List.length_cons, List.length_nil] at h
        omega
      simp [elementsLoop, hge, List.intersperse_singleton]
    | cons q tl =>
      have hlt : i < t - 1 := by
        simp only [List.length_cons] at h
        omega
      have hrec : (i + 1) + (q :: tl).length = t := by
        simp only [List.length_cons] at h ⊢
        omega
      show (Element.content p ::
          (if i < t - 1 then [Element.pageBreak] else [])) ++
          elementsLoop (q :: tl) t (i + 1) = _
      rw [if_pos hlt, ih (i + 1) t hrec]
      simp [List.intersperse_cons_cons]

/-- Counting content elements in an interleaved element list recovers the
page count. -/
theorem length_filter_isContent (pages : List Page) :
    ((List.intersperse Element.pageBreak
      (pages.map Element.content)).filter Element.isContent).length =
      pages.length := by
  induction pages with
  | nil => rfl
  | cons p rest ih =>
    cases rest with
    | nil => rfl
    | cons q tl =>
      simp only [List.map_cons, List.intersperse_cons_cons,
        List.filter_cons] at ih ⊢
      simpa [Element.isContent] using ih

/-- Inversion of a successful generation run: the required-column check
passed, the returned mapping is the resolved one, and the elements are the
loop over the rows in order. -/
theorem generate_ok_inv {qrOk : String → Bool} {today : String}
    {df : DataFrame} {cfg : LayoutConfig} {els : List Element}
    {fc : List (String × String)}
    (h : generate_sticker_labels qrOk today df cfg = Except.ok (els, fc)) :
    required_columns.filter
      (fun c => (fcGet? (resolveColumns df) c).isNone) = [] ∧
    fc = resolveColumns df ∧
    els = elementsLoop
      (df.rows.map (buildPage qrOk today (resolveColumns df) cfg))
      df.rows.length 0 := by
  unfold generate_sticker_labels at h
  split at h
  · rename_i hcond
    injection h with h2
    rw [Prod.mk.injEq] at h2
    exact ⟨hcond, h2.2.symm, h2.1.symm⟩
  · cases h

/-- Inversion of a failed generation run. -/
theorem generate_error_inv {qrOk : String → Bool} {today : String}
    {df : DataFrame} {cfg : LayoutConfig} {m : List String}
    (h : generate_sticker_labels qrOk today df cfg = Except.error m) :
    m = required_columns.filter
      (fun c => (fcGet? (resolveColumns df) c).isNone) ∧ m ≠ [] := by
  unfold generate_sticker_labels at h
  split at h
  · cases h
  · rename_i hcond
    injection h with h2
    exact ⟨h2.symm, h2.symm ▸ hcond⟩

/-- Every field of a sticker except the code-image cell is independent of
the QR encoding oracle. -/
theorem buildPage_eraseQR_oracle (k₁ k₂ : String → Bool) (today : String)
    (fc : List (String × String)) (cfg : LayoutConfig) (row : Row) :
    (buildPage k₁ today fc cfg row).eraseQR =
      (buildPage k₂ today fc cfg row).eraseQR := rfl

/-- Blanking the QR cells commutes with the generation loop. -/
theorem elementsLoop_map_eraseQR (pages : List Page) (total : ℕ) :
    ∀ index : ℕ, (elementsLoop pages total index).map Element.eraseQR =
      elementsLoop (pages.map Page.eraseQR) total index := by
  induction pages with
  | nil => intro i; rfl
  | cons p rest ih =>
    intro i
    simp only [elementsLoop, List.map_cons, List.map_append]
    by_cases hlt : i < total - 1 <;>
      simp [hlt, Element.eraseQR, ih (i + 1)]

/-- With the QR cells blanked, a generation run does not depend on the QR
encoding oracle at all. -/
theorem generate_eraseQR_oracle (k₁ k₂ : String → Bool) (today : String)
    (df : DataFrame) (cfg : LayoutConfig) :
    (generate_sticker_labels k₁ today df cfg).map
      (fun x => (x.1.map Element.eraseQR, x.2)) =
    (generate_sticker_labels k₂ today df cfg).map
      (fun x => (x.1.map Element.eraseQR, x.2)) := by
  unfold generate_sticker_labels
  split
  · simp only [Except.map, elementsLoop_map_eraseQR, List.map_map]
    have hcomp : (Page.eraseQR ∘ buildPage k₁ today (resolveColumns df) cfg) =
        (Page.eraseQR ∘ buildPage k₂ today (resolveColumns df) cfg) := by
      funext r
      exact buildPage_eraseQR_oracle k₁ k₂ today (resolveColumns df) cfg r
    rw [hcomp]
  · rfl

/-- The incrementally composed QR payload, flattened: three mandatory
labeled lines, each optional labeled line exactly when its value is
non-empty, then the date line. -/
theorem mkQrData_flat (A P D q t l dt : String) :
    mkQrData A P D q t l dt =
      "ASSLY: " ++ A ++ "\nPart No: " ++ P ++ "\nDescription: " ++ D ++
      "\n" ++
      (if q = "" then "" else "QTY/BIN: " ++ q ++ "\n") ++
      (if t = "" then "" else "Type: " ++ t ++ "\n") ++
      (if l = "" then "" else "Line Location: " ++ l ++ "\n") ++
      ("Date: " ++ dt) := by
  unfold mkQrData
  by_cases hq : q = "" <;> by_cases ht : t = "" <;> by_cases hl : l = "" <;>
    simp [hq, ht, hl, String.append_assoc, String.append_empty]

/-- Claim C2: for every input string, parsing the location code returns
exactly 4 ordered segments — split on underscore, truncated to 4 when there
are more, padded with empty strings when there are fewer; in particular
parse "A_B" = ["A","B","",""], parse "A_B_C_D_E" = ["A","B","C","D"] and
parse "" = ["","","",""]. -/
theorem parse_line_location_four_segments :
    (∀ L : String, (parse_line_location L).length = 4) ∧
    parse_line_location "A_B" = ["A", "B", "", ""] ∧
    parse_line_location "A_B_C_D_E" = ["A", "B", "C", "D"] ∧
    parse_line_location "" = ["", "", "", ""] := by
  refine ⟨?_, by decide, by decide, by decide⟩
  intro L
  unfold parse_line_location
  split
  · rfl
  · simp only [List.length_take, List.length_append, List.length_replicate]
    omega

/-- Claim C1 counterexample: resolving the ASSLY field (not the
line-location field) against a table whose only header is "Line Location"
finds no exact and no substring alias match, yet the resolver still returns
that column via the keyword heuristic — and the resolved mapping therefore
contains an ASSLY entry — refuting that the heuristic applies only to the
line-location field and that other fields are absent without an alias
match. -/
theorem find_column_heuristic_cex :
    exact_match (buildNormDict ["Line Location"])
      ((schemaAliases "ASSLY").map normalize_column_name) = none ∧
    substr_match (buildNormDict ["Line Location"])
      ((schemaAliases "ASSLY").map normalize_column_name) = none ∧
    find_column ⟨["Line Location"], []⟩ (schemaAliases "ASSLY") =
      some "Line Location" ∧
    fcGet? (resolveColumns ⟨["Line Location"], []⟩) "ASSLY" =
      some "Line Location" :=
  ⟨by decide, by decide, by decide, by decide⟩

/-- Claim C1 (amended): the line-location keyword heuristic is part of the
generic column matcher and runs for every semantic field: whenever neither
the exact stage nor the substring stage matches, `find_column` returns the
keyword-scan result — whatever alias list (semantic field) it was given —
so a field is absent only when the keyword scan also fails. -/
theorem find_column_heuristic_every_field (df : DataFrame)
    (names : List String)
    (h1 : exact_match (buildNormDict df.columns)
      (names.map normalize_column_name) = none)
    (h2 : substr_match (buildNormDict df.columns)
      (names.map normalize_column_name) = none) :
    find_column df names = lineloc_keyword (buildNormDict df.columns) := by
  unfold find_column
  rw [h1, h2]

/-- Witness for the amended claim C1 at the concrete table with the single
header "Line Location" and the ASSLY alias list. -/
theorem find_column_heuristic_every_field_witness :
    find_column ⟨["Line Location"], []⟩ (schemaAliases "ASSLY") =
      lineloc_keyword (buildNormDict ["Line Location"]) :=
  find_column_heuristic_every_field ⟨["Line Location"], []⟩
    (schemaAliases "ASSLY") (by decide) (by decide)

/-- Claim C3: whenever one or more of the required fields {ASSLY, part_no,
description} cannot be resolved, generation returns an error carrying
exactly the ordered list of missing required field names, and no document
(no elements) is produced. -/
theorem generate_aborts_on_missing_required (qrOk : String → Bool)
    (today : String) (df : DataFrame) (cfg : LayoutConfig)
    (h : required_columns.filter
      (fun c => (fcGet? (resolveColumns df) c).isNone) ≠ []) :
    generate_sticker_labels qrOk today df cfg =
      Except.error (required_columns.filter
        (fun c => (fcGet? (resolveColumns df) c).isNone)) := by
  unfold generate_sticker_labels
  rw [if_neg h]

/-- Witness for claim C3: a table with headers ASSLY and PARTNO but no
description-like header aborts reporting exactly ["description"]. -/
theorem generate_aborts_on_missing_required_witness :
    generate_sticker_labels qrOkW "01-01-2024" ⟨["ASSLY", "PARTNO"], []⟩
        cfgW =
      Except.error (required_columns.filter (fun c =>
        (fcGet? (resolveColumns ⟨["ASSLY", "PARTNO"], []⟩) c).isNone)) ∧
    required_columns.filter (fun c =>
      (fcGet? (resolveColumns ⟨["ASSLY", "PARTNO"], []⟩) c).isNone) =
      ["description"] :=
  ⟨generate_aborts_on_missing_required qrOkW "01-01-2024"
    ⟨["ASSLY", "PARTNO"], []⟩ cfgW (by decide), by decide⟩

/-- Claim C4 counterexample: with headers ["Part Number", "PARTNO"], the
header "Part Number" exactly matches the alias "Part Number" of the part_no
field, yet resolution picks "PARTNO" (the value stored under the first
alias, "PARTNO", in alias order) — refuting that resolution picks that very
column H for every exactly-matching header H. -/
theorem exact_match_picks_other_column_cex :
    "Part Number" ∈ (⟨["Part Number", "PARTNO"], []⟩ : DataFrame).columns ∧
    "Part Number" ∈ schemaAliases "part_no" ∧
    normalize_column_name "Part Number" =
      normalize_column_name "Part Number" ∧
    find_column ⟨["Part Number", "PARTNO"], []⟩ (schemaAliases "part_no") =
      some "PARTNO" ∧
    "PARTNO" ≠ "Part Number" :=
  ⟨by decide, by decide, rfl, by decide, by decide⟩

/-- Claim C4 (amended): if some table header H exactly matches some alias
after normalization, resolution returns the exact-match stage's result — an
existing column whose normalized form equals that of some alias (strict
priority over the substring stage and the keyword heuristic) — and when H
is the only column with an exact alias match, the picked column is H
itself. -/
theorem exact_match_priority (df : DataFrame) (names : List String)
    (H a : String) (hH : H ∈ df.columns) (ha : a ∈ names)
    (heq : normalize_column_name H = normalize_column_name a) :
    find_column df names =
      exact_match (buildNormDict df.columns)
        (names.map normalize_column_name) ∧
    (∃ H' a', H' ∈ df.columns ∧ a' ∈ names ∧
      normalize_column_name H' = normalize_column_name a' ∧
      find_column df names = some H') ∧
    ((∀ c ∈ df.columns,
        (∃ b ∈ names, normalize_column_name c = normalize_column_name b) →
        c = H) →
      find_column df names = some H) := by
  have hkey : ∃ p ∈ buildNormDict df.columns,
      p.1 = normalize_column_name H :=
    foldl_dictInsert_key_of_mem df.columns [] hH
  have hget : (dictGet? (buildNormDict df.columns)
      (normalize_column_name a)).isSome := by
    rw [← heq]
    exact dictGet?_isSome_of_hasKey hkey
  have hnn : normalize_column_name a ∈ names.map normalize_column_name :=
    List.mem_map_of_mem _ ha
  have hsome : (exact_match (buildNormDict df.columns)
      (names.map normalize_column_name)).isSome :=
    exact_match_isSome hnn hget
  obtain ⟨c, hc⟩ := Option.isSome_iff_exists.mp hsome
  have hfind : find_column df names = some c := by
    unfold find_column
    rw [hc]
  obtain ⟨n, hn, p, hp, hpk, hpv⟩ := exact_match_spec hc
  obtain ⟨hnorm, hmem⟩ := buildNormDict_mem hp
  obtain ⟨a', ha', hna'⟩ := List.mem_map.mp hn
  have hcnorm : normalize_column_name c = normalize_column_name a' := by
    rw [← hpv, ← hnorm, hpk, ← hna']
  refine ⟨by rw [hfind, hc], ⟨c, a', hpv ▸ hmem, ha', hcnorm, hfind⟩, ?_⟩
  intro huniq
  have hcH : c = H := huniq c (hpv ▸ hmem) ⟨a', ha', hcnorm⟩
  rw [hfind, hcH]

/-- Witness for the amended claim C4 at the concrete table
["ASSLY", "PARTNO", "DESCRIPTION"] with H = "ASSLY" and alias "assly". -/
theorem exact_match_priority_witness :
    (find_column dfW (schemaAliases "ASSLY") =
      exact_match (buildNormDict dfW.columns)
        ((schemaAliases "ASSLY").map normalize_column_name)) ∧
    (∃ H' a', H' ∈ dfW.columns ∧ a' ∈ schemaAliases "ASSLY" ∧
      normalize_column_name H' = normalize_column_name a' ∧
      find_column dfW (schemaAliases "ASSLY") = some H') ∧
    ((∀ c ∈ dfW.columns,
        (∃ b ∈ schemaAliases "ASSLY",
          normalize_column_name c = normalize_column_name b) →
        c = "ASSLY") →
      find_column dfW (schemaAliases "ASSLY") = some "ASSLY") :=
  exact_match_priority dfW (schemaAliases "ASSLY") "ASSLY" "assly"
    (by decide) (by decide) (by decide)

/-- The textual view of a generation result ignores the code-image cells:
blanking them first changes nothing. -/
theorem docTextView_erase
    (r : Except (List String) (List Element × List (String × String))) :
    docTextView (r.map (fun x => (x.1.map Element.eraseQR, x.2))) =
      docTextView r := by
  cases r with
  | error e => rfl
  | ok x =>
    simp only [docTextView, Except.map, List.map_map]
    have hfun : ((fun e => match e with
        | Element.content p => some p.textCells
        | Element.pageBreak => none) ∘ Element.eraseQR) =
        (fun e : Element => match e with
        | Element.content p => some p.textCells
        | Element.pageBreak => none) := by
      funext e
      cases e <;> rfl
    rw [hfun]

/-- Claim C5: a successful generation run produces exactly one sticker per
table row, in table row order, with one explicit page break between
consecutive stickers and none after the last, and the number of content
elements equals the number of rows — no record is skipped. -/
theorem generate_pages_structure (qrOk : String → Bool) (today : String)
    (df : DataFrame) (cfg : LayoutConfig) (els : List Element)
    (fc : List (String × String))
    (h : generate_sticker_labels qrOk today df cfg = Except.ok (els, fc)) :
    els = List.intersperse Element.pageBreak
      (df.rows.map (fun r =>
        Element.content (buildPage qrOk today (resolveColumns df) cfg r))) ∧
    (els.filter Element.isContent).length = df.rows.length := by
  obtain ⟨-, -, hels⟩ := generate_ok_inv h
  have he : els = List.intersperse Element.pageBreak
      ((df.rows.map
        (buildPage qrOk today (resolveColumns df) cfg)).map
          Element.content) := by
    rw [hels]
    exact elementsLoop_eq_intersperse _ 0 _ (by simp)
  constructor
  · rw [he, List.map_map]
    rfl
  · rw [he, length_filter_isContent, List.length_map]

/-- Witness for claim C5 at a concrete one-row table. -/
theorem generate_pages_structure_witness :
    elementsLoop
        (dfW.rows.map (buildPage qrOkW "01-01-2024" (resolveColumns dfW)
          cfgW)) dfW.rows.length 0 =
      List.intersperse Element.pageBreak (dfW.rows.map (fun r =>
        Element.content (buildPage qrOkW "01-01-2024" (resolveColumns dfW)
          cfgW r))) ∧
    ((elementsLoop
        (dfW.rows.map (buildPage qrOkW "01-01-2024" (resolveColumns dfW)
          cfgW)) dfW.rows.length 0).filter Element.isContent).length =
      dfW.rows.length :=
  generate_pages_structure qrOkW "01-01-2024" dfW cfgW
    (elementsLoop
      (dfW.rows.map (buildPage qrOkW "01-01-2024" (resolveColumns dfW)
        cfgW)) dfW.rows.length 0)
    (resolveColumns dfW) rfl

/-- Claim C6: the scannable-code payload of every record concatenates, in
fixed order, the labeled assembly, part-number and description lines, then
the quantity, type and raw line-location labeled lines each exactly when
the value is non-empty, and finally the generation date line, all
newline-separated. -/
theorem qr_payload_composition (qrOk : String → Bool) (today : String)
    (fc : List (String × String)) (cfg : LayoutConfig) (row : Row) :
    (buildPage qrOk today fc cfg row).qr_data =
      "ASSLY: " ++ (buildPage qrOk today fc cfg row).ASSLY ++
      "\nPart No: " ++ (buildPage qrOk today fc cfg row).part_no ++
      "\nDescription: " ++ (buildPage qrOk today fc cfg row).desc ++
      "\n" ++
      (if (buildPage qrOk today fc cfg row).Part_per_veh = "" then ""
       else "QTY/BIN: " ++ (buildPage qrOk today fc cfg row).Part_per_veh ++
         "\n") ++
      (if (buildPage qrOk today fc cfg row).Type' = "" then ""
       else "Type: " ++ (buildPage qrOk today fc cfg row).Type' ++ "\n") ++
      (if (buildPage qrOk today fc cfg row).line_location_raw = "" then ""
       else "Line Location: " ++
         (buildPage qrOk today fc cfg row).line_location_raw ++ "\n") ++
      ("Date: " ++ (buildPage qrOk today fc cfg row).date) := by
  simp only [buildPage]
  exact mkQrData_flat _ _ _ _ _ _ _

/-- Claim C7: QR-encoding failure degrades to the textual "QR" placeholder
in that one cell only — with the code-image cells blanked, a run under any
failing oracle produces exactly the document an always-succeeding oracle
produces (same success/failure, same pages, same texts, same widths), and
the failing record's cell holds the placeholder while a succeeding one
holds the image of its payload. -/
theorem qr_failure_degrades_locally (qrOk : String → Bool) (today : String)
    (df : DataFrame) (cfg : LayoutConfig) :
    ((generate_sticker_labels qrOk today df cfg).map
      (fun x => (x.1.map Element.eraseQR, x.2)) =
     (generate_sticker_labels (fun _ => true) today df cfg).map
      (fun x => (x.1.map Element.eraseQR, x.2))) ∧
    (∀ (fc : List (String × String)) (row : Row),
      qrOk (buildPage qrOk today fc cfg row).qr_data = false →
      (buildPage qrOk today fc cfg row).qr_cell =
        QRCell.placeholder "QR") ∧
    (∀ (fc : List (String × String)) (row : Row),
      qrOk (buildPage qrOk today fc cfg row).qr_data = true →
      (buildPage qrOk today fc cfg row).qr_cell =
        QRCell.image (buildPage qrOk today fc cfg row).qr_data) := by
  refine ⟨generate_eraseQR_oracle qrOk (fun _ => true) today df cfg,
    ?_, ?_⟩
  · intro fc row hfail
    simp only [buildPage] at hfail ⊢
    simp [generate_qr_code, hfail]
  · intro fc row hok
    simp only [buildPage] at hok ⊢
    simp [generate_qr_code, hok]

/-- Witness for claim C7: under an always-failing oracle the code-image
cell of a concrete record is the textual placeholder. -/
theorem qr_failure_degrades_locally_witness :
    (buildPage (fun _ => false) "01-01-2024" [] cfgW rowW).qr_cell =
      QRCell.placeholder "QR" :=
  ((qr_failure_degrades_locally (fun _ => false) "01-01-2024" dfW
    cfgW).2.1) [] rowW rfl

/-- Claim C8: each location-region column width is its configured fraction
times the fixed 9.8 cm content width, for every configuration (no
constraint that the fractions sum to 1 — the all-ones configuration fills
each column with the full content width); the default fractions
{0.3, 0.2, 0.25, 0.15, 0.1} yield 2.94, 1.96, 2.45, 1.47 and 0.98 cm. -/
theorem location_region_widths :
    (∀ (qrOk : String → Bool) (today : String)
      (fc : List (String × String)) (cfg : LayoutConfig) (row : Row),
      (buildPage qrOk today fc cfg row).col_widths_bottom =
        [content_width * cfg.line_loc_header_width,
         content_width * cfg.line_loc_box1_width,
         content_width * cfg.line_loc_box2_width,
         content_width * cfg.line_loc_box3_width,
         content_width * cfg.line_loc_box4_width]) ∧
    content_width = 9.8 ∧
    (buildPage qrOkW "01-01-2024" [] ⟨0.3, 0.2, 0.25, 0.15, 0.1⟩
      []).col_widths_bottom = [2.94, 1.96, 2.45, 1.47, 0.98] ∧
    (buildPage qrOkW "01-01-2024" [] ⟨1, 1, 1, 1, 1⟩
      []).col_widths_bottom = [9.8, 9.8, 9.8, 9.8, 9.8] := by
  refine ⟨fun qrOk today fc cfg row => rfl, by norm_num [content_width,
    CONTENT_BOX_WIDTH], ?_, ?_⟩ <;>
    norm_num [buildPage, content_width, CONTENT_BOX_WIDTH]

/-- Claim C9: generation is deterministic in the table, the configuration
and the date — even under two different QR-encoding oracles, two runs agree
on success/failure, on the resolved mapping, on the page count and break
structure, on every textual cell of every page, and on all column widths
(everything except the embedded code image itself). -/
theorem generation_deterministic (today : String) (df : DataFrame)
    (cfg : LayoutConfig) (k₁ k₂ : String → Bool) :
    docTextView (generate_sticker_labels k₁ today df cfg) =
      docTextView (generate_sticker_labels k₂ today df cfg) ∧
    (generate_sticker_labels k₁ today df cfg).map
      (fun x => (x.1.map Element.eraseQR, x.2)) =
    (generate_sticker_labels k₂ today df cfg).map
      (fun x => (x.1.map Element.eraseQR, x.2)) := by
  refine ⟨?_, generate_eraseQR_oracle k₁ k₂ today df cfg⟩
  calc docTextView (generate_sticker_labels k₁ today df cfg)
      = docTextView ((generate_sticker_labels k₁ today df cfg).map
          (fun x => (x.1.map Element.eraseQR, x.2))) :=
        (docTextView_erase _).symm
    _ = docTextView ((generate_sticker_labels k₂ today df cfg).map
          (fun x => (x.1.map Element.eraseQR, x.2))) := by
        rw [generate_eraseQR_oracle k₁ k₂ today df cfg]
    _ = docTextView (generate_sticker_labels k₂ today df cfg) :=
        docTextView_erase _

/-- Claim C10: once the missing-required-column check has passed, the
"N/A" fallback branches for the three required fields are unreachable —
every page extracts assembly, part number and description by raw
stringification of the record's cell in the resolved column. -/
theorem required_fields_never_na (qrOk : String → Bool) (today : String)
    (df : DataFrame) (cfg : LayoutConfig) (els : List Element)
    (fc : List (String × String))
    (h : generate_sticker_labels qrOk today df cfg = Except.ok (els, fc))
    (row : Row) :
    (∃ c, fcGet? fc "ASSLY" = some c ∧
      (buildPage qrOk today fc cfg row).ASSLY = (getCell row c).toStr) ∧
    (∃ c, fcGet? fc "part_no" = some c ∧
      (buildPage qrOk today fc cfg row).part_no =
        (getCell row c).toStr) ∧
    (∃ c, fcGet? fc "description" = some c ∧
      (buildPage qrOk today fc cfg row).desc = (getCell row c).toStr) := by
  obtain ⟨hfilter, hfc, -⟩ := generate_ok_inv h
  subst hfc
  have hall := List.filter_eq_nil_iff.mp hfilter
  refine ⟨?_, ?_, ?_⟩
  · have h1 := hall "ASSLY" (by decide)
    cases hx : fcGet? (resolveColumns df) "ASSLY" with
    | none => rw [hx] at h1; simp at h1
    | some c => exact ⟨c, rfl, by simp [buildPage, extractRequired, hx]⟩
  · have h1 := hall "part_no" (by decide)
    cases hx : fcGet? (resolveColumns df) "part_no" with
    | none => rw [hx] at h1; simp at h1
    | some c => exact ⟨c, rfl, by simp [buildPage, extractRequired, hx]⟩
  · have h1 := hall "description" (by decide)
    cases hx : fcGet? (resolveColumns df) "description" with
    | none => rw [hx] at h1; simp at h1
    | some c => exact ⟨c, rfl, by simp [buildPage, extractRequired, hx]⟩

/-- Witness for claim C10 at the concrete one-row table. -/
theorem required_fields_never_na_witness :
    (∃ c, fcGet? (resolveColumns dfW) "ASSLY" = some c ∧
      (buildPage qrOkW "01-01-2024" (resolveColumns dfW) cfgW rowW).ASSLY =
        (getCell rowW c).toStr) ∧
    (∃ c, fcGet? (resolveColumns dfW) "part_no" = some c ∧
      (buildPage qrOkW "01-01-2024" (resolveColumns dfW) cfgW
        rowW).part_no = (getCell rowW c).toStr) ∧
    (∃ c, fcGet? (resolveColumns dfW) "description" = some c ∧
      (buildPage qrOkW "01-01-2024" (resolveColumns dfW) cfgW rowW).desc =
        (getCell rowW c).toStr) :=
  required_fields_never_na qrOkW "01-01-2024" dfW cfgW
    (elementsLoop
      (dfW.rows.map (buildPage qrOkW "01-01-2024" (resolveColumns dfW)
        cfgW)) dfW.rows.length 0)
    (resolveColumns dfW) rfl rowW

end InstorLabel
